import Mathlib

/-!
Shallow embedding of the WebSocket chat server in `server/index.js`
(authenticated variant): the connection registry (`clients` Map), the
broadcast fan-out over `wss.clients`, the per-frame receive handler
(`ws.on("message")`), the connect sequence (`connectAsync`) and the close
handler (`ws.on("close")`), together with the message store accessed
through Prisma (`message` table with an auto-increment primary key).

Conventions of the model:
* A live socket (an element of `wss.clients`) is a `Conn`: its identity
  `wsId : Nat` and its `readyState` (`1` = OPEN, as in the source's
  `readyState === 1` checks).
* The `clients` registry Map is an association list `List (Nat × ClientUser)`
  keyed by `wsId`; the source only uses `get`/`set`/`delete` on it, never
  iteration, so association-list update with key override is faithful.
* The message table is a `List StoredMessage` kept in ascending primary-key
  order (`nextId` is the auto-increment counter); Prisma's
  `orderBy: { id: "desc" }` is therefore `List.reverse`.
* JavaScript values arriving in a parsed frame are modelled by `JsVal`
  (JSON arrays are not modelled; no claim exercises them). A field access
  on `null` — the one way the handler's property reads can throw — is an
  `Except.error JsError.typeError`, as is `sender.id` when the registry
  lookup returned `undefined`.
* Prisma calls are modelled by their outcome: `persistOk : Bool` for
  `prisma.message.create`, `Option ClientUser` for the user lookup in
  `connectAsync`. `Date.now()` readings are explicit `Nat` parameters.
* An outbound send is a pair `(wsId, Event)`; a handler returns the next
  server state and the list of sends it performed, in order.
-/

/-- A JavaScript value as it can appear in a `JSON.parse` result
(arrays omitted; no claim exercises them). -/
inductive JsVal where
  | undef
  | nullv
  | bool (b : Bool)
  | num (n : Int)
  | str (s : String)
  | obj (fields : List (String × JsVal))

deriving instance DecidableEq for Except

/-- The one runtime error the modelled handler code can raise: a
`TypeError` from reading a property of `undefined`/`null`. -/
inductive JsError where
  | typeError
deriving DecidableEq, Repr

/-- Property read `v.k`: throws on `null`/`undefined`, yields `undefined`
for a missing key or a primitive receiver. -/
def getField : JsVal → String → Except JsError JsVal
  | .undef, _ => .error .typeError
  | .nullv, _ => .error .typeError
  | .bool _, _ => .ok .undef
  | .num _, _ => .ok .undef
  | .str _, _ => .ok .undef
  | .obj fields, k => .ok ((fields.lookup k).getD .undef)

/-- JavaScript truthiness. -/
def truthy : JsVal → Bool
  | .undef => false
  | .nullv => false
  | .bool b => b
  | .num n => n != 0
  | .str s => s != ""
  | .obj _ => true

/-- JavaScript `a || b`. -/
def jsOr (a b : JsVal) : JsVal :=
  if truthy a then a else b

/-- JavaScript `String(v)` on the modelled values. -/
def jsToString : JsVal → String
  | .undef => "undefined"
  | .nullv => "null"
  | .bool b => if b then "true" else "false"
  | .num n => toString n
  | .str s => s
  | .obj _ => "[object Object]"

/-- Strict equality `v === "lit"` against a string literal. -/
def JsVal.isStr : JsVal → String → Bool
  | .str s, t => s == t
  | _, _ => false

/-- The whitespace set of JavaScript `String.prototype.trim` (ASCII part
plus NBSP and BOM; the remaining Unicode space separators are omitted,
no claim exercises them). -/
def isJsSpace (c : Char) : Bool :=
  c == ' ' || c == '\t' || c == '\n' || c == '\r' ||
    c == '\x0b' || c == '\x0c' || c == ' ' || c == '﻿'

/-- JavaScript `s.trim()`. -/
def jsTrim (s : String) : String :=
  String.mk (((s.data.dropWhile isJsSpace).reverse.dropWhile isJsSpace).reverse)

/-- `String(payload.text || "").trim()` — the message branch's text
extraction (the only way it can throw is `payload` being `null`). -/
def jsText (payload : JsVal) : Except JsError String :=
  (getField payload "text").map (fun v => jsTrim (jsToString (jsOr v (.str ""))))

/-- A registry entry value: `{ id: user.id, name: user.username }`. -/
structure ClientUser where
  id : Nat
  name : String
deriving DecidableEq, Repr

/-- A row of the Prisma `message` table. -/
structure StoredMessage where
  id : Nat
  userId : Nat
  username : String
  text : String
  createdAt : Nat
deriving DecidableEq, Repr

/-- One live socket in `wss.clients`. -/
structure Conn where
  wsId : Nat
  readyState : Nat
deriving DecidableEq, Repr

/-- A history entry as serialized by the server:
`{ type: "message", id, name, text, at }`. -/
structure MsgItem where
  id : Nat
  name : String
  text : String
  «at» : Nat
deriving DecidableEq, Repr

/-- An outbound event frame. -/
inductive Event where
  | welcome (id : Nat) (name : String) («at» : Nat)
  | history (messages : List MsgItem)
  | system (text : String) («at» : Nat)
  | presence (action : String) (id : Nat) (name : String) («at» : Nat)
  | message (id : Nat) (name : String) (text : String) («at» : Nat)
  | typing (id : Nat) (name : String) (isTyping : Bool)
  | error (text : String)
deriving DecidableEq, Repr

/-- The server's mutable state: `wss.clients`, the `clients` registry Map,
and the message table with its auto-increment counter. -/
structure ServerState where
  wssClients : List Conn
  clients : List (Nat × ClientUser)
  store : List StoredMessage
  nextId : Nat
deriving DecidableEq, Repr

/-- `clients.set(ws, u)` — Map update with key override. -/
def mapSet (m : List (Nat × ClientUser)) (k : Nat) (v : ClientUser) :
    List (Nat × ClientUser) :=
  (k, v) :: m.filter (fun p => p.1 != k)

/-- `broadcast(payload)`: stringifies once and sends that one frame to every
socket in `wss.clients` with `readyState === 1`; the per-recipient `send`
result is ignored. -/
def broadcast (wssClients : List Conn) (payload : Event) : List (Nat × Event) :=
  (wssClients.filter (fun c => c.readyState == 1)).map (fun c => (c.wsId, payload))

/-- The typing branch's inline fan-out: every socket with
`client !== ws && client.readyState === 1`. -/
def typingFanout (wssClients : List Conn) (ws : Nat) (payload : Event) :
    List (Nat × Event) :=
  (wssClients.filter (fun c => c.wsId != ws && c.readyState == 1)).map
    (fun c => (c.wsId, payload))

/-- A stored row rendered as a history/API entry
`{ type: "message", id: row.userId, name: row.username, text, at }`. -/
def msgItemOfRow (row : StoredMessage) : MsgItem :=
  ⟨row.userId, row.username, row.text, row.createdAt⟩

/-- `prisma.message.findMany({ orderBy: { id: "desc" }, take: 100 })`,
mapped to wire entries and `.reverse()`d, as in `connectAsync` and
`GET /api/history` (the store list is ascending by `id`, so descending
order is `List.reverse`). -/
def historyItems (store : List StoredMessage) : List MsgItem :=
  (((store.reverse).take 100).map msgItemOfRow).reverse

/-- The `history` event sent to a new connection. -/
def historyEvent (store : List StoredMessage) : Event :=
  .history (historyItems store)

/-- `connectAsync`: look up the session user (`none` models a deleted user:
`ws.close()`, nothing sent, nothing registered); otherwise register in the
`clients` Map, send `welcome`, `history`, `system` directly, then broadcast
`presence{join}`. `tWelcome`/`tSystem`/`tJoin` are the three `Date.now()`
readings. -/
def connectAsync (st : ServerState) (ws : Nat) (user : Option ClientUser)
    (tWelcome tSystem tJoin : Nat) : ServerState × List (Nat × Event) :=
  match user with
  | none => (st, [])
  | some u =>
    let st' := { st with clients := mapSet st.clients ws u }
    (st',
      [(ws, .welcome u.id u.name tWelcome),
       (ws, historyEvent st.store),
       (ws, .system "Connected to chat server." tSystem)]
      ++ broadcast st.wssClients (.presence "join" u.id u.name tJoin))

/-- The `ws.on("message")` handler for one inbound frame. `frame` is the
`JSON.parse` outcome (`none` = parse threw). `now` is the `Date.now()`
reading of the message branch and `persistOk` the outcome of
`prisma.message.create`. Returns the next state and the sends performed,
or the `TypeError` the handler throws when `clients.get(ws)` returned
`undefined` and `.id` is read (or when a property of a `null` payload is
read). -/
def handleFrame (st : ServerState) (ws : Nat) (frame : Option JsVal)
    (now : Nat) (persistOk : Bool) :
    Except JsError (ServerState × List (Nat × Event)) :=
  match frame with
  | none => .ok (st, [(ws, .error "Invalid JSON.")])
  | some payload =>
    match getField payload "type" with
    | .error e => .error e
    | .ok ty =>
      if ty.isStr "message" then
        match jsText payload with
        | .error e => .error e
        | .ok text =>
          if text = "" then
            .ok (st, [])
          else
            match st.clients.lookup ws with
            | none => .error .typeError
            | some sender =>
              if persistOk then
                .ok ({ st with
                        store := st.store ++
                          [⟨st.nextId, sender.id, sender.name, text, now⟩],
                        nextId := st.nextId + 1 },
                     broadcast st.wssClients
                       (.message sender.id sender.name text now))
              else
                .ok (st, [(ws, .error "Failed to save message.")])
      else if ty.isStr "typing" then
        match getField payload "isTyping" with
        | .error e => .error e
        | .ok v =>
          match st.clients.lookup ws with
          | none => .error .typeError
          | some sender =>
            .ok (st, typingFanout st.wssClients ws
                  (.typing sender.id sender.name (truthy v)))
      else
        .ok (st, [])

/-- The `ws.on("close")` handler. The `ws` library removes the socket from
`wss.clients` before user `close` listeners run (and its `readyState` is no
longer 1), so the model first drops `ws` from `wssClients`; then, per the
source, `clients.get(ws)`, `clients.delete(ws)`, and a `presence{leave}`
broadcast only if the entry existed. -/
def handleClose (st : ServerState) (ws : Nat) (now : Nat) :
    ServerState × List (Nat × Event) :=
  let stConn := { st with wssClients := st.wssClients.filter (fun c => c.wsId != ws) }
  let left := stConn.clients.lookup ws
  let st' := { stConn with clients := stConn.clients.filter (fun p => p.1 != ws) }
  match left with
  | some u => (st', broadcast st'.wssClients (.presence "leave" u.id u.name now))
  | none => (st', [])

/-- The healthy (`readyState === 1`) socket ids, in `wss.clients` order. -/
def healthyIds (cs : List Conn) : List Nat :=
  (cs.filter (fun c => c.readyState == 1)).map (fun c => c.wsId)

/-- The recipient set the spec claims for a broadcast: handles present in
the Connection Registry whose socket is healthy. (Formalised from the
spec's words, for comparison with `broadcast`, which iterates
`wss.clients`.) -/
def registeredHealthyIds (st : ServerState) : List Nat :=
  (st.wssClients.filter
    (fun c => c.readyState == 1 && (st.clients.lookup c.wsId).isSome)).map
    (fun c => c.wsId)

/-- Per-recipient delivery outcome: the attempted sends tagged with whether
the recipient's `send` succeeded; the source ignores this outcome. -/
def sendAll (recips : List (Nat × Event)) (fails : Nat → Bool) :
    List (Nat × Event × Bool) :=
  recips.map (fun p => (p.1, p.2, !fails p.1))

/-- A key filtered out of an association list is no longer found. -/
theorem lookup_filter_ne (m : List (Nat × ClientUser)) (k : Nat) :
    (m.filter (fun p => p.1 != k)).lookup k = none := by
  induction m with
  | nil => rfl
  | cons hd tl ih =>
    by_cases h : hd.1 = k
    · simp [List.filter_cons, h, ih]
    · have hb : (hd.1 == k) = false := beq_eq_false_iff_ne.mpr h
      have hb' : (k == hd.1) = false := beq_eq_false_iff_ne.mpr (Ne.symm h)
      simp [List.filter_cons, bne, hb, hb', List.lookup, ih]
      exact fun a b _ hak hka => hak hka.symm

/-- C1: a non-empty (post-trim) `message` frame from a registered connection,
with the persistence call succeeding, appends exactly
`(senderId, senderName from the registry, trimmed text, ingestion time)` to
the store and broadcasts a `message` event carrying those same fields to
every healthy socket — the sender included when its socket is healthy. -/
theorem message_persist_then_broadcast (st : ServerState) (ws : Nat)
    (payload : JsVal) (sender : ClientUser) (t : String) (now : Nat)
    (hty : getField payload "type" = .ok (.str "message"))
    (htext : jsText payload = .ok t) (hne : t ≠ "")
    (hreg : st.clients.lookup ws = some sender) :
    handleFrame st ws (some payload) now true =
      .ok ({ st with
              store := st.store ++ [⟨st.nextId, sender.id, sender.name, t, now⟩],
              nextId := st.nextId + 1 },
           broadcast st.wssClients (.message sender.id sender.name t now))
    ∧ ∀ c ∈ st.wssClients, c.readyState = 1 →
        (c.wsId, Event.message sender.id sender.name t now) ∈
          broadcast st.wssClients (.message sender.id sender.name t now) := by
  constructor
  · simp [handleFrame, hty, htext, hreg, JsVal.isStr, hne]
  · intro c hc hr
    exact List.mem_map.mpr ⟨c, List.mem_filter.mpr ⟨hc, by simp [hr]⟩, rfl⟩

theorem message_persist_then_broadcast_witness :
    handleFrame ⟨[⟨0, 1⟩, ⟨1, 1⟩], [(0, ⟨7, "alice"⟩)], [], 1⟩ 0
      (some (.obj [("type", .str "message"), ("text", .str " hi ")])) 5 true =
      .ok (⟨[⟨0, 1⟩, ⟨1, 1⟩], [(0, ⟨7, "alice"⟩)], [⟨1, 7, "alice", "hi", 5⟩], 2⟩,
           [(0, .message 7 "alice" "hi" 5), (1, .message 7 "alice" "hi" 5)]) :=
  (message_persist_then_broadcast ⟨[⟨0, 1⟩, ⟨1, 1⟩], [(0, ⟨7, "alice"⟩)], [], 1⟩ 0
    (.obj [("type", .str "message"), ("text", .str " hi ")]) ⟨7, "alice"⟩ "hi" 5
    rfl (by decide) (by decide) rfl).1

/-- C2: when the persistence call fails for a non-empty `message` frame from
a registered connection, the state is unchanged (nothing stored, the sender
stays registered/Active), no `message` event is broadcast, and the only send
is one `error` event to the originating connection. -/
theorem persist_failure_local_error (st : ServerState) (ws : Nat)
    (payload : JsVal) (sender : ClientUser) (t : String) (now : Nat)
    (hty : getField payload "type" = .ok (.str "message"))
    (htext : jsText payload = .ok t) (hne : t ≠ "")
    (hreg : st.clients.lookup ws = some sender) :
    handleFrame st ws (some payload) now false =
      .ok (st, [(ws, .error "Failed to save message.")]) := by
  simp [handleFrame, hty, htext, hreg, JsVal.isStr, hne]

theorem persist_failure_local_error_witness :
    handleFrame ⟨[⟨0, 1⟩, ⟨1, 1⟩], [(0, ⟨7, "alice"⟩)], [], 1⟩ 0
      (some (.obj [("type", .str "message"), ("text", .str "hi")])) 5 false =
      .ok (⟨[⟨0, 1⟩, ⟨1, 1⟩], [(0, ⟨7, "alice"⟩)], [], 1⟩,
           [(0, .error "Failed to save message.")]) :=
  persist_failure_local_error ⟨[⟨0, 1⟩, ⟨1, 1⟩], [(0, ⟨7, "alice"⟩)], [], 1⟩ 0
    (.obj [("type", .str "message"), ("text", .str "hi")]) ⟨7, "alice"⟩ "hi" 5
    rfl (by decide) (by decide) rfl

/-- C8: a `message` frame whose text is empty after string coercion and
trimming is dropped silently: state unchanged, no store append, no
broadcast, and no `error` event. -/
theorem empty_text_dropped (st : ServerState) (ws : Nat) (payload : JsVal)
    (now : Nat) (pOk : Bool)
    (hty : getField payload "type" = .ok (.str "message"))
    (htext : jsText payload = .ok "") :
    handleFrame st ws (some payload) now pOk = .ok (st, []) := by
  simp [handleFrame, hty, htext, JsVal.isStr]

theorem empty_text_dropped_witness :
    handleFrame ⟨[⟨0, 1⟩, ⟨1, 1⟩], [(0, ⟨7, "alice"⟩)], [], 1⟩ 0
      (some (.obj [("type", .str "message"), ("text", .str "   ")])) 5 true =
      .ok (⟨[⟨0, 1⟩, ⟨1, 1⟩], [(0, ⟨7, "alice"⟩)], [], 1⟩, []) :=
  empty_text_dropped ⟨[⟨0, 1⟩, ⟨1, 1⟩], [(0, ⟨7, "alice"⟩)], [], 1⟩ 0
    (.obj [("type", .str "message"), ("text", .str "   ")]) 5 true rfl (by decide)

/-- C3: on a successful connect the registry gains the identity and the send
sequence is exactly `welcome`, `history`, `system` directly to the new
connection followed by the `presence{join}` broadcast; every healthy socket
(the new one included, once its socket is healthy) finds the join event only
in the part of the sequence after the three direct sends. -/
theorem connect_sequence (st : ServerState) (ws : Nat) (u : ClientUser)
    (t1 t2 t3 : Nat) :
    connectAsync st ws (some u) t1 t2 t3 =
      ({ st with clients := mapSet st.clients ws u },
       [(ws, .welcome u.id u.name t1),
        (ws, historyEvent st.store),
        (ws, .system "Connected to chat server." t2)]
       ++ broadcast st.wssClients (.presence "join" u.id u.name t3))
    ∧ ∀ c ∈ st.wssClients, c.readyState = 1 →
        (c.wsId, Event.presence "join" u.id u.name t3) ∈
          (connectAsync st ws (some u) t1 t2 t3).2.drop 3 := by
  refine ⟨rfl, ?_⟩
  intro c hc hr
  have hdrop : (connectAsync st ws (some u) t1 t2 t3).2.drop 3 =
      broadcast st.wssClients (.presence "join" u.id u.name t3) := rfl
  rw [hdrop]
  exact List.mem_map.mpr ⟨c, List.mem_filter.mpr ⟨hc, by simp [hr]⟩, rfl⟩

theorem connect_sequence_witness :
    (⟨0, 1⟩ : Conn) ∈ (⟨[⟨0, 1⟩], [], [], 0⟩ : ServerState).wssClients ∧
    ((0 : Nat), Event.presence "join" 9 "bob" 3) ∈
      (connectAsync ⟨[⟨0, 1⟩], [], [], 0⟩ 0 (some ⟨9, "bob"⟩) 1 2 3).2.drop 3 :=
  ⟨by decide,
   (connect_sequence ⟨[⟨0, 1⟩], [], [], 0⟩ 0 ⟨9, "bob"⟩ 1 2 3).2
     ⟨0, 1⟩ (by decide) rfl⟩

/-- C4 counterexample: a parseable frame with an unrecognized `type`
(`"set-name"`, which the sibling anonymous-variant client actually emits)
produces no send at all — in particular no `error` event to the originating
connection — refuting the claim that every unknown-type frame is answered
with an `error` event. -/
theorem unknown_type_no_error_event :
    handleFrame ⟨[⟨0, 1⟩, ⟨1, 1⟩], [(0, ⟨7, "alice"⟩)], [], 1⟩ 0
      (some (.obj [("type", .str "set-name"), ("name", .str "x")])) 5 true =
      .ok (⟨[⟨0, 1⟩, ⟨1, 1⟩], [(0, ⟨7, "alice"⟩)], [], 1⟩, []) := rfl

/-- C4 amended: a frame that fails to parse is answered with exactly one
`error` event (`"Invalid JSON."`) to the originating connection, with the
state unchanged; a frame that parses but carries an unrecognized `type` is
silently ignored (state unchanged, no send, no `error` event). In both
cases the connection stays registered and processing continues. -/
theorem malformed_or_unknown_frames (st : ServerState) (ws : Nat)
    (payload ty : JsVal) (now : Nat) (pOk : Bool)
    (hty : getField payload "type" = .ok ty)
    (hm : ty.isStr "message" = false) (ht : ty.isStr "typing" = false) :
    handleFrame st ws none now pOk = .ok (st, [(ws, .error "Invalid JSON.")])
    ∧ handleFrame st ws (some payload) now pOk = .ok (st, []) :=
  ⟨rfl, by simp [handleFrame, hty, hm, ht]⟩

theorem malformed_or_unknown_frames_witness :
    handleFrame ⟨[⟨0, 1⟩], [(0, ⟨7, "alice"⟩)], [], 1⟩ 0 none 5 true =
      .ok (⟨[⟨0, 1⟩], [(0, ⟨7, "alice"⟩)], [], 1⟩, [(0, .error "Invalid JSON.")])
    ∧ handleFrame ⟨[⟨0, 1⟩], [(0, ⟨7, "alice"⟩)], [], 1⟩ 0
        (some (.obj [("type", .str "hello")])) 5 true =
      .ok (⟨[⟨0, 1⟩], [(0, ⟨7, "alice"⟩)], [], 1⟩, []) :=
  malformed_or_unknown_frames ⟨[⟨0, 1⟩], [(0, ⟨7, "alice"⟩)], [], 1⟩ 0
    (.obj [("type", .str "hello")]) (.str "hello") 5 true rfl (by decide) (by decide)

/-- C5: the history sent to a joining connection has at most 100 entries, is
exactly the suffix of the store past position `length − 100` (i.e. the most
recent entries in stored — chronological, oldest-first — order), and has
exactly 100 entries as soon as at least 100 messages are stored. -/
theorem history_bound_and_recency (store : List StoredMessage) :
    (historyItems store).length ≤ 100
    ∧ historyItems store = (store.drop (store.length - 100)).map msgItemOfRow
    ∧ (100 ≤ store.length → (historyItems store).length = 100) := by
  have key : historyItems store = (store.drop (store.length - 100)).map msgItemOfRow := by
    rw [historyItems, ← List.map_reverse, ← List.rtake_eq_reverse_take_reverse, List.rtake]
  refine ⟨?_, key, ?_⟩
  · rw [key]
    simp only [List.length_map, List.length_drop]
    omega
  · intro h
    rw [key]
    simp only [List.length_map, List.length_drop]
    omega

theorem history_bound_and_recency_witness :
    100 ≤ ((List.range 150).map
      (fun i => (⟨i, i, "u", "m", i⟩ : StoredMessage))).length
    ∧ (historyItems ((List.range 150).map
        (fun i => (⟨i, i, "u", "m", i⟩ : StoredMessage)))).length = 100 :=
  ⟨by simp,
   (history_bound_and_recency ((List.range 150).map
      (fun i => (⟨i, i, "u", "m", i⟩ : StoredMessage)))).2.2 (by simp)⟩

/-- C6: closing a registered connection broadcasts one `presence{leave}`
carrying its registry identity to the remaining healthy sockets; afterwards
the handle is gone from the registry, a repeated close signal produces no
send at all, and (when socket ids are distinct) no remaining socket is sent
the leave event twice. -/
theorem close_leave_once (st : ServerState) (ws : Nat) (now now2 : Nat)
    (left : ClientUser) (hreg : st.clients.lookup ws = some left) :
    (handleClose st ws now).2 =
      broadcast (st.wssClients.filter (fun c => c.wsId != ws))
        (.presence "leave" left.id left.name now)
    ∧ (handleClose st ws now).1.clients.lookup ws = none
    ∧ (handleClose (handleClose st ws now).1 ws now2).2 = []
    ∧ ((st.wssClients.map Conn.wsId).Nodup →
        ((handleClose st ws now).2.map Prod.fst).Nodup) := by
  refine ⟨by simp [handleClose, hreg], ?_, ?_, ?_⟩
  · simp [handleClose, hreg, lookup_filter_ne]
  · simp [handleClose, hreg, lookup_filter_ne]
  · intro hnd
    have h1 : (handleClose st ws now).2.map Prod.fst =
        ((st.wssClients.filter (fun c => c.wsId != ws)).filter
          (fun c => c.readyState == 1)).map Conn.wsId := by
      simp [handleClose, hreg, broadcast, List.map_map]
    rw [h1]
    have hsub : ((st.wssClients.filter (fun c => c.wsId != ws)).filter
        (fun c => c.readyState == 1)).Sublist st.wssClients :=
      ((List.filter_sublist _).trans (List.filter_sublist _))
    exact hnd.sublist (hsub.map Conn.wsId)

theorem close_leave_once_witness :
    (handleClose ⟨[⟨0, 1⟩, ⟨1, 1⟩], [(0, ⟨7, "alice"⟩), (1, ⟨9, "bob"⟩)], [], 0⟩
        1 20).2 =
      [(0, .presence "leave" 9 "bob" 20)]
    ∧ (handleClose (handleClose
        ⟨[⟨0, 1⟩, ⟨1, 1⟩], [(0, ⟨7, "alice"⟩), (1, ⟨9, "bob"⟩)], [], 0⟩ 1 20).1
        1 21).2 = [] :=
  ⟨(close_leave_once ⟨[⟨0, 1⟩, ⟨1, 1⟩], [(0, ⟨7, "alice"⟩), (1, ⟨9, "bob"⟩)], [], 0⟩
      1 20 21 ⟨9, "bob"⟩ rfl).1,
   (close_leave_once ⟨[⟨0, 1⟩, ⟨1, 1⟩], [(0, ⟨7, "alice"⟩), (1, ⟨9, "bob"⟩)], [], 0⟩
      1 20 21 ⟨9, "bob"⟩ rfl).2.2.1⟩

/-- C7: a `typing` frame from a registered connection changes no state
(nothing is persisted) and relays `typing{senderId, senderName from the
registry, Boolean(isTyping)}` to exactly the other healthy sockets: the
sender receives nothing, and every healthy socket other than the sender
receives the event. -/
theorem typing_relay_excludes_sender (st : ServerState) (ws : Nat)
    (payload v : JsVal) (sender : ClientUser) (now : Nat) (pOk : Bool)
    (hty : getField payload "type" = .ok (.str "typing"))
    (hv : getField payload "isTyping" = .ok v)
    (hreg : st.clients.lookup ws = some sender) :
    handleFrame st ws (some payload) now pOk =
      .ok (st, typingFanout st.wssClients ws
            (.typing sender.id sender.name (truthy v)))
    ∧ (∀ ev, (ws, ev) ∉ typingFanout st.wssClients ws
        (.typing sender.id sender.name (truthy v)))
    ∧ ∀ c ∈ st.wssClients, c.wsId ≠ ws → c.readyState = 1 →
        (c.wsId, Event.typing sender.id sender.name (truthy v)) ∈
          typingFanout st.wssClients ws
            (.typing sender.id sender.name (truthy v)) := by
  refine ⟨by simp [handleFrame, hty, hv, hreg, JsVal.isStr], ?_, ?_⟩
  · intro ev hmem
    simp only [typingFanout, List.mem_map, List.mem_filter] at hmem
    obtain ⟨c, ⟨-, hcond⟩, heq⟩ := hmem
    have : c.wsId = ws := congrArg Prod.fst heq
    simp [this] at hcond
  · intro c hc hne hr
    exact List.mem_map.mpr ⟨c, List.mem_filter.mpr ⟨hc, by simp [hne, hr]⟩, rfl⟩

theorem typing_relay_excludes_sender_witness :
    handleFrame ⟨[⟨0, 1⟩, ⟨1, 1⟩, ⟨2, 0⟩], [(0, ⟨7, "alice"⟩)], [], 1⟩ 0
      (some (.obj [("type", .str "typing"), ("isTyping", .bool true)])) 5 true =
      .ok (⟨[⟨0, 1⟩, ⟨1, 1⟩, ⟨2, 0⟩], [(0, ⟨7, "alice"⟩)], [], 1⟩,
           [(1, .typing 7 "alice" true)]) :=
  (typing_relay_excludes_sender
    ⟨[⟨0, 1⟩, ⟨1, 1⟩, ⟨2, 0⟩], [(0, ⟨7, "alice"⟩)], [], 1⟩ 0
    (.obj [("type", .str "typing"), ("isTyping", .bool true)]) (.bool true)
    ⟨7, "alice"⟩ 5 true rfl rfl rfl).1

/-- C9 counterexample: in a state with one healthy connected socket that is
not (or not yet) in the `clients` registry — exactly the window between the
upgrade and `connectAsync`'s `clients.set` — `broadcast` attempts a send to
that socket, so its attempted-recipient set differs from the set of
registered healthy handles the claim prescribes. -/
theorem broadcast_hits_unregistered_socket :
    (broadcast (ServerState.mk [⟨0, 1⟩] [] [] 0).wssClients
        (.system "x" 0)).map Prod.fst ≠
      registeredHealthyIds ⟨[⟨0, 1⟩], [], [], 0⟩ := by
  decide

/-- C9 amended: each `broadcast` call sends the one serialized payload to
exactly the healthy members of `wss.clients` (the set of connected sockets,
registered in the `clients` Map or not) at the moment of the call, skipping
unhealthy sockets; every attempted recipient gets the identical payload,
and per-recipient send failures are ignored — they neither change the
attempted fan-out nor abort delivery to the remaining recipients. -/
theorem broadcast_fanout (cs : List Conn) (ev : Event) (fails : Nat → Bool) :
    (broadcast cs ev).map Prod.fst = healthyIds cs
    ∧ (∀ p ∈ broadcast cs ev, p.2 = ev)
    ∧ (sendAll (broadcast cs ev) fails).map (fun q => (q.1, q.2.1)) =
        broadcast cs ev := by
  refine ⟨by simp [broadcast, healthyIds, List.map_map], ?_, ?_⟩
  · intro p hp
    obtain ⟨c, -, rfl⟩ := List.mem_map.mp hp
    rfl
  · have hcomp : ((fun q : Nat × Event × Bool => (q.1, q.2.1)) ∘
        (fun p : Nat × Event => (p.1, p.2, !fails p.1))) = id := funext fun _ => rfl
    rw [sendAll, List.map_map, hcomp, List.map_id]

theorem broadcast_fanout_witness :
    ((0 : Nat), Event.system "x" 0) ∈ broadcast [⟨0, 1⟩] (.system "x" 0) ∧
    (((0 : Nat), Event.system "x" 0) : Nat × Event).2 = .system "x" 0 :=
  ⟨by decide,
   (broadcast_fanout [⟨0, 1⟩] (.system "x" 0) (fun _ => false)).2.1
     (0, .system "x" 0) (by decide)⟩

/-- C10: the message and typing branches read the sender through the
unguarded `clients.get(ws)` and then access `.id`/`.name`; when the frame
arrives before `connectAsync`'s registration has completed the lookup finds
nothing and the field access throws a `TypeError`, so those branches only
run to completion under the registration precondition — which
`connectAsync`'s `clients.set` establishes. -/
theorem sender_lookup_requires_registration (st : ServerState) (ws : Nat)
    (payload : JsVal) (now : Nat) (pOk : Bool)
    (hunreg : st.clients.lookup ws = none) :
    (∀ v, getField payload "type" = .ok (.str "typing") →
      getField payload "isTyping" = .ok v →
      handleFrame st ws (some payload) now pOk = .error .typeError)
    ∧ (∀ t, getField payload "type" = .ok (.str "message") →
        jsText payload = .ok t → t ≠ "" →
        handleFrame st ws (some payload) now pOk = .error .typeError)
    ∧ (∀ u t1 t2 t3,
        (connectAsync st ws (some u) t1 t2 t3).1.clients.lookup ws = some u) := by
  refine ⟨?_, ?_, ?_⟩
  · intro v hty hv
    simp [handleFrame, hty, hv, hunreg, JsVal.isStr]
  · intro t hty htext hne
    simp [handleFrame, hty, htext, hne, hunreg, JsVal.isStr]
  · intro u t1 t2 t3
    simp [connectAsync, mapSet, List.lookup]

theorem sender_lookup_requires_registration_witness :
    handleFrame ⟨[⟨0, 1⟩], [], [], 0⟩ 0
      (some (.obj [("type", .str "typing"), ("isTyping", .bool true)])) 5 true =
      .error .typeError :=
  (sender_lookup_requires_registration ⟨[⟨0, 1⟩], [], [], 0⟩ 0
    (.obj [("type", .str "typing"), ("isTyping", .bool true)]) 5 true rfl).1
    (.bool true) rfl rfl

/-- The store shape the history query relies on: rows in strictly ascending
primary-key order, every key below the auto-increment counter. -/
def StoreSorted (st : ServerState) : Prop :=
  st.store.Pairwise (fun a b => a.id < b.id) ∧ ∀ r ∈ st.store, r.id < st.nextId

/-- Frame handling preserves the store shape: the only write is the message
branch's append of a row keyed with the fresh auto-increment id. -/
theorem handleFrame_preserves_storeSorted (st : ServerState) (ws : Nat)
    (frame : Option JsVal) (now : Nat) (pOk : Bool) (st' : ServerState)
    (sends : List (Nat × Event)) (hs : StoreSorted st)
    (h : handleFrame st ws frame now pOk = .ok (st', sends)) :
    StoreSorted st' := by
  obtain ⟨hp, hb⟩ := hs
  unfold handleFrame at h
  iterate 8 (all_goals try split at h)
  all_goals simp only [Except.ok.injEq, Prod.mk.injEq, reduceCtorEq] at h
  all_goals obtain ⟨h1, -⟩ := h
  all_goals subst h1
  all_goals try exact ⟨hp, hb⟩
  constructor
  · rw [List.pairwise_append]
    refine ⟨hp, List.pairwise_singleton _ _, ?_⟩
    intro a ha b hbm
    rw [List.mem_singleton] at hbm
    subst hbm
    exact hb a ha
  · intro r hr
    rcases List.mem_append.mp hr with hmem | hmem
    · exact Nat.lt_succ_of_lt (hb r hmem)
    · rw [List.mem_singleton] at hmem
      subst hmem
      exact Nat.lt_succ_self _
